import Mathlib

/-!
Shallow embedding of the zj-quit confirmation overlay (src/src/main.rs).

The overlay holds a `State` (key bindings, configured `Action`, latched
target fields), reacts to host events through `State.update`, and on
confirmation emits host calls through `State.execute_action`.  Host calls
are modelled as an emitted `List HostCall`; rendering is modelled as the
strings the source formats plus the coordinate arithmetic it performs,
with checked subtraction where the source subtracts unsigned integers
without `saturating_sub`.
-/

namespace ZjQuit

/-- The action to perform after confirmation (src/src/main.rs, `enum Action`). -/
inductive Action
  | QuitSession
  | ClosePane
  | CloseTab
deriving DecidableEq, Repr

/-- `impl Default for Action`: the default action is `QuitSession`. -/
def Action.default : Action := Action.QuitSession

/-- Character-wise ASCII lowercasing, modelling `str::to_lowercase` as it
acts on the configuration strings compared against the ASCII alias sets. -/
def strLower (s : String) : String := ⟨s.data.map Char.toLower⟩

/-- `Action::from_config`: lowercase the configuration string and match it
against the alias sets; anything unmatched yields `QuitSession`. -/
def Action.from_config (s : String) : Action :=
  let l := strLower s
  if l = "close_pane" ∨ l = "closepane" ∨ l = "pane" then Action.ClosePane
  else if l = "close_tab" ∨ l = "closetab" ∨ l = "tab" then Action.CloseTab
  else Action.QuitSession

/-- `Action::confirmation_text`. -/
def Action.confirmation_text : Action → String
  | Action.QuitSession => "Are you sure you want to quit this session?"
  | Action.ClosePane => "Are you sure you want to close this pane?"
  | Action.CloseTab => "Are you sure you want to close this tab?"

/-- `Action::action_name`. -/
def Action.action_name : Action → String
  | Action.QuitSession => "Quit Session"
  | Action.ClosePane => "Close Pane"
  | Action.CloseTab => "Close Tab"

/-- Bare keys; only the constructors the overlay's defaults and configured
bindings need (`BareKey` in the host SDK). -/
inductive BareKey
  | Enter
  | Esc
  | Char (c : Char)
deriving DecidableEq, Repr

/-- Key modifiers of the host SDK. -/
inductive KeyModifier
  | Ctrl
  | Alt
  | Shift
  | Super
deriving DecidableEq, Repr

/-- A key together with its modifier set, compared structurally
(`KeyWithModifier` in the host SDK). -/
structure KeyWithModifier where
  bare_key : BareKey
  key_modifiers : List KeyModifier
deriving DecidableEq, Repr

/-- `KeyWithModifier::new`: a bare key with no modifiers. -/
def KeyWithModifier.new (k : BareKey) : KeyWithModifier := ⟨k, []⟩

/-- Modelled from the spec: the host SDK renders a key binding as text for
the help line; only its length feeds the (saturating) column arithmetic. -/
def KeyWithModifier.display (k : KeyWithModifier) : String :=
  let mods := k.key_modifiers.foldl
    (fun acc m =>
      acc ++ (match m with
        | KeyModifier.Ctrl => "Ctrl+"
        | KeyModifier.Alt => "Alt+"
        | KeyModifier.Shift => "Shift+"
        | KeyModifier.Super => "Super+"))
    ""
  mods ++ (match k.bare_key with
    | BareKey.Enter => "ENTER"
    | BareKey.Esc => "ESC"
    | BareKey.Char c => String.singleton c)

/-- Tagged pane identity (`PaneId` in the host SDK): the host exposes two
disjoint id spaces. -/
inductive PaneId
  | Terminal (id : Nat)
  | Plugin (id : Nat)
deriving DecidableEq, Repr

/-- A tab descriptor as delivered by tab-state notifications: its position
index and whether it is focused (`TabInfo`, fields `position` / `active`). -/
structure TabInfo where
  position : Nat
  active : Bool
deriving DecidableEq, Repr

/-- A pane descriptor as delivered by pane-manifest notifications
(`PaneInfo`, fields `id`, `is_focused`, `is_plugin`). -/
structure PaneInfo where
  id : Nat
  is_focused : Bool
  is_plugin : Bool
deriving DecidableEq, Repr

/-- The pane manifest: a finite map from tab index to that tab's panes
(`PaneManifest`), modelled as an association list. -/
structure PaneManifest where
  panes : List (Nat × List PaneInfo)
deriving DecidableEq, Repr

/-- Association-list lookup standing in for `BTreeMap::get`. -/
def btreeGet {α : Type} (m : List (Nat × α)) (k : Nat) : Option α :=
  (m.find? (fun p => p.1 == k)).map Prod.snd

/-- Modelled from the spec: the host SDK helper `get_focused_tab` (not part
of this repository's source) scans the tab descriptors for the one whose
focus flag is set. -/
def get_focused_tab (tab_infos : List TabInfo) : Option TabInfo :=
  tab_infos.find? (fun t => t.active)

/-- Modelled from the spec: the host SDK helper `get_focused_pane` (not part
of this repository's source) looks up the focused pane within the manifest
subset belonging to the given tab index. -/
def get_focused_pane (tab_index : Nat) (pane_manifest : PaneManifest) : Option PaneInfo :=
  (btreeGet pane_manifest.panes tab_index).bind
    (fun ps => ps.find? (fun p => p.is_focused))

/-- The overlay's state (`struct State`). -/
structure State where
  confirm_key : KeyWithModifier
  cancel_key : KeyWithModifier
  action : Action
  target_pane_id : Option PaneId
  target_tab_index : Option Nat
  pane_info_received : Bool
deriving DecidableEq, Repr

/-- `impl Default for State`: Enter confirms, Esc cancels, action defaults,
no target resolved yet. -/
def State.default : State :=
  { confirm_key := KeyWithModifier.new BareKey.Enter
    cancel_key := KeyWithModifier.new BareKey.Esc
    action := Action.default
    target_pane_id := none
    target_tab_index := none
    pane_info_received := false }

/-- The host primitives the overlay can invoke (outbound calls). -/
inductive HostCall
  | quit_zellij
  | hide_self
  | close_pane_with_id (id : PaneId)
  | close_focus
  | close_focused_tab
deriving DecidableEq, Repr

/-- Inbound host events the overlay subscribes to; `Other` covers every
event category matched by the source's `_ => ()` arm. -/
inductive Event
  | Key (key : KeyWithModifier)
  | PaneUpdate (pane_manifest : PaneManifest)
  | TabUpdate (tab_infos : List TabInfo)
  | Other
deriving DecidableEq, Repr

/-- `State::execute_action`: the sequence of host calls issued on confirm,
in order. -/
def State.execute_action (s : State) : List HostCall :=
  match s.action with
  | Action.QuitSession => [HostCall.quit_zellij]
  | Action.ClosePane =>
    HostCall.hide_self ::
      (match s.target_pane_id with
       | some pane_id => [HostCall.close_pane_with_id pane_id]
       | none => [HostCall.close_focus])
  | Action.CloseTab => [HostCall.hide_self, HostCall.close_focused_tab]

/-- Result of one `update` step: the new state, the host calls emitted
during the step (in order), and the re-render flag the source returns. -/
structure UpdateResult where
  state : State
  calls : List HostCall
  rerender : Bool
deriving DecidableEq, Repr

/-- `State::update`: one event-handling step.  Key events dispatch on the
confirm key first, then the cancel key; a pane-manifest notification is
processed only when `pane_info_received` is still false and the action is
`ClosePane`, and then sets `pane_info_received` unconditionally; a tab
notification latches the focused tab's position while `target_tab_index`
is `none`.  The source returns `true` from every step. -/
def State.update (s : State) (event : Event) : UpdateResult :=
  match event with
  | Event.Key key =>
    if s.confirm_key = key then ⟨s, s.execute_action, true⟩
    else if s.cancel_key = key then ⟨s, [HostCall.hide_self], true⟩
    else ⟨s, [], true⟩
  | Event.PaneUpdate pane_manifest =>
    if s.pane_info_received = false ∧ s.action = Action.ClosePane then
      let s1 :=
        match s.target_tab_index with
        | some tab_index =>
          match get_focused_pane tab_index pane_manifest with
          | some pane_info =>
            let pid :=
              if pane_info.is_plugin then PaneId.Plugin pane_info.id
              else PaneId.Terminal pane_info.id
            { s with target_pane_id := some pid }
          | none => s
        | none => s
      ⟨{ s1 with pane_info_received := true }, [], true⟩
    else ⟨s, [], true⟩
  | Event.TabUpdate tab_infos =>
    if s.target_tab_index = none then
      match get_focused_tab tab_infos with
      | some focused_tab =>
        ⟨{ s with target_tab_index := some focused_tab.position }, [], true⟩
      | none => ⟨s, [], true⟩
    else ⟨s, [], true⟩
  | Event.Other => ⟨s, [], true⟩

/-- Folding `update` over a sequence of events. -/
def runEvents (s : State) (es : List Event) : State :=
  es.foldl (fun s e => (s.update e).state) s

/-- Association-list lookup standing in for the configuration
`BTreeMap<String, String>::get`. -/
def configGet (m : List (String × String)) (k : String) : Option String :=
  (m.find? (fun p => p.1 == k)).map Prod.snd

/-- `State::load`: starting from the default state, parse the configured
confirm key, cancel key and action.  A key string that fails to parse keeps
the previous value (`unwrap_or`); the parser itself lives in the host SDK,
so `load` is parameterised over it. -/
def State.load (parse_key : String → Option KeyWithModifier)
    (configuration : List (String × String)) : State :=
  let s0 := State.default
  let s1 :=
    match configGet configuration "confirm_key" with
    | some confirm_key => { s0 with confirm_key := (parse_key confirm_key).getD s0.confirm_key }
    | none => s0
  let s2 :=
    match configGet configuration "cancel_key" with
    | some abort_key => { s1 with cancel_key := (parse_key abort_key).getD s1.cancel_key }
    | none => s1
  match configGet configuration "action" with
  | some action_str => { s2 with action := Action.from_config action_str }
  | none => s2

/-- Checked unsigned subtraction: the value of `a - b` on `usize` when it
does not underflow, `none` (a panic in the source) when it would. -/
def csub (a b : Nat) : Option Nat :=
  if b ≤ a then some (a - b) else none

/-- `let title_y = (rows / 2) - 3;` (unchecked unsigned subtraction). -/
def title_y (rows : Nat) : Option Nat := csub (rows / 2) 3

/-- `let confirmation_y_location = (rows / 2) - 1;` (unchecked). -/
def confirmation_y_location (rows : Nat) : Option Nat := csub (rows / 2) 1

/-- `let help_text_y_location = rows - 1;` (unchecked). -/
def help_text_y_location (rows : Nat) : Option Nat := csub rows 1

/-- The title line `[ ... ]`. -/
def State.title (s : State) : String := "[ " ++ s.action.action_name ++ " ]"

/-- The target status line computed by `render`: concrete pane/tab identity
once resolved (tab displayed 1-indexed), `(detecting...)` while unresolved,
empty for `QuitSession`. -/
def State.target_info (s : State) : String :=
  match s.action with
  | Action.ClosePane =>
    match s.target_pane_id with
    | some (PaneId.Terminal id) => "Target: Terminal pane #" ++ toString id
    | some (PaneId.Plugin id) => "Target: Plugin pane #" ++ toString id
    | none => "Target: (detecting...)"
  | Action.CloseTab =>
    match s.target_tab_index with
    | some tab_idx => "Target: Tab #" ++ toString (tab_idx + 1)
    | none => "Target: (detecting...)"
  | Action.QuitSession => ""

/-- The help line at the bottom of the overlay. -/
def State.help_text (s : State) : String :=
  "Help: <" ++ s.confirm_key.display ++ "> - Confirm, <"
    ++ s.cancel_key.display ++ "> - Cancel"

/-- `State::render` restricted to its coordinate arithmetic: the `(x, y)`
pair of every `print_text_with_coordinates` call, in order.  Column offsets
use `saturating_sub` (truncated `Nat` subtraction); row offsets use
unchecked `usize` subtraction, so the result is `none` exactly when the
source panics on underflow. -/
def State.render (s : State) (rows cols : Nat) : Option (List (Nat × Nat)) := do
  let tY ← title_y rows
  let tX := (cols - s.title.length) / 2
  let cY ← confirmation_y_location rows
  let cX := (cols - s.action.confirmation_text.length) / 2
  let ti := s.target_info
  let infoCoords :=
    if ti.length = 0 then ([] : List (Nat × Nat))
    else [((cols - ti.length) / 2, rows / 2 + 1)]
  let hY ← help_text_y_location rows
  let hX := (cols - s.help_text.length) / 2
  pure ([(tX, tY), (cX, cY)] ++ infoCoords ++ [(hX, hY)])

/-- A state as after loading with `action = close_pane`, before any
notification has arrived. -/
def closePaneStart : State := { State.default with action := Action.ClosePane }

/-- A fully resolved `ClosePane` state: tab position 2 latched, terminal
pane 7 latched, pane info received. -/
def resolvedState : State :=
  { State.default with
    action := Action.ClosePane
    target_pane_id := some (PaneId.Terminal 7)
    target_tab_index := some 2
    pane_info_received := true }

/-- A `ClosePane` state whose target pane resolved to terminal pane 7. -/
def terminal7State : State :=
  { State.default with
    action := Action.ClosePane
    target_pane_id := some (PaneId.Terminal 7) }

/-- A state whose cancel key was configured equal to the confirm key. -/
def sameKeyState : State :=
  { State.default with cancel_key := KeyWithModifier.new BareKey.Enter }

/-- End-to-end scenario state: loaded with `action = close_tab`, then the tab
notification naming position 2 as focused. -/
def closeTabScenario : State :=
  ((State.load (fun _ => none) [("action", "close_tab")]).update
    (Event.TabUpdate [⟨0, false⟩, ⟨2, true⟩])).state

/-! Theorems. -/

/-- C8: `from_config` maps any configuration string matching a `ClosePane`
alias ("close_pane", "closepane", "pane") or a `CloseTab` alias ("close_tab",
"closetab", "tab") case-insensitively to the corresponding action, and maps
every other string (including the empty string) to `QuitSession`. -/
theorem from_config_aliases (s : String) :
    ((strLower s = "close_pane" ∨ strLower s = "closepane" ∨ strLower s = "pane") →
      Action.from_config s = Action.ClosePane) ∧
    ((strLower s = "close_tab" ∨ strLower s = "closetab" ∨ strLower s = "tab") →
      Action.from_config s = Action.CloseTab) ∧
    (strLower s ∉ (["close_pane", "closepane", "pane",
        "close_tab", "closetab", "tab"] : List String) →
      Action.from_config s = Action.QuitSession) := by
  refine ⟨?_, ?_, ?_⟩
  · intro h
    simp only [Action.from_config]
    rw [if_pos h]
  · intro h
    have h1 : ¬ (strLower s = "close_pane" ∨ strLower s = "closepane" ∨ strLower s = "pane") := by
      rcases h with h | h | h <;> rw [h] <;> decide
    simp only [Action.from_config]
    rw [if_neg h1, if_pos h]
  · intro h
    simp only [List.mem_cons, List.not_mem_nil, or_false, not_or] at h
    obtain ⟨h1, h2, h3, h4, h5, h6⟩ := h
    simp only [Action.from_config]
    rw [if_neg (by simp [h1, h2, h3]), if_neg (by simp [h4, h5, h6])]

/-- C8 witness: a capitalised alias resolves case-insensitively, and the
empty string falls back to `QuitSession`. -/
theorem from_config_aliases_witness :
    Action.from_config "PANE" = Action.ClosePane ∧
    Action.from_config "" = Action.QuitSession :=
  ⟨(from_config_aliases "PANE").1 (by decide),
   (from_config_aliases "").2.2 (by decide)⟩

/-- C9: when the configuration supplies a `confirm_key` / `cancel_key`
string, a parse failure keeps the prior default (Enter / Esc) and a parse
success installs the parsed binding. -/
theorem load_key_parse_fallback (parse_key : String → Option KeyWithModifier)
    (configuration : List (String × String)) (str : String) :
    (configGet configuration "confirm_key" = some str →
      ((parse_key str = none →
          (State.load parse_key configuration).confirm_key
            = KeyWithModifier.new BareKey.Enter) ∧
        (∀ k, parse_key str = some k →
          (State.load parse_key configuration).confirm_key = k))) ∧
    (configGet configuration "cancel_key" = some str →
      ((parse_key str = none →
          (State.load parse_key configuration).cancel_key
            = KeyWithModifier.new BareKey.Esc) ∧
        (∀ k, parse_key str = some k →
          (State.load parse_key configuration).cancel_key = k))) := by
  constructor
  · intro hconf
    constructor
    · intro hp
      simp only [State.load, hconf, hp, Option.getD]
      rcases configGet configuration "cancel_key" with _ | astr <;>
        rcases configGet configuration "action" with _ | actstr <;>
        simp [State.default]
    · intro k hp
      simp only [State.load, hconf, hp, Option.getD]
      rcases configGet configuration "cancel_key" with _ | astr <;>
        rcases configGet configuration "action" with _ | actstr <;>
        simp [State.default]
  · intro hconf
    constructor
    · intro hp
      simp only [State.load, hconf, hp, Option.getD]
      rcases configGet configuration "confirm_key" with _ | cstr <;>
        rcases configGet configuration "action" with _ | actstr <;>
        simp [State.default, hp]
    · intro k hp
      simp only [State.load, hconf, hp, Option.getD]
      rcases configGet configuration "confirm_key" with _ | cstr <;>
        rcases configGet configuration "action" with _ | actstr <;>
        simp [State.default, hp]

/-- C9 witness: a failing parse keeps the Enter default for the confirm key. -/
theorem load_key_parse_fallback_witness :
    (State.load (fun _ => none) [("confirm_key", "bogus")]).confirm_key
      = KeyWithModifier.new BareKey.Enter :=
  ((load_key_parse_fallback (fun _ => none) [("confirm_key", "bogus")] "bogus").1
    (by decide)).1 rfl

/-- C1 counterexample: with action `ClosePane`, `pane_info_received` false and
`target_tab_index` still `none`, a pane-manifest notification is not a no-op
on the state: it flips `pane_info_received` to true. -/
theorem paneUpdate_latches_before_tab_resolved :
    closePaneStart.action = Action.ClosePane ∧
    closePaneStart.target_tab_index = none ∧
    closePaneStart.pane_info_received = false ∧
    ((closePaneStart.update (Event.PaneUpdate ⟨[]⟩)).state).pane_info_received = true := by
  decide

/-- C1 amended: a pane-manifest notification is a state no-op whenever the
action is not `ClosePane` or `pane_info_received` is already true; when the
action is `ClosePane` and `pane_info_received` is false but `target_tab_index`
is still `none`, the notification is processed anyway and its only effect is
setting `pane_info_received` to true. -/
theorem paneUpdate_effect (s : State) (m : PaneManifest) :
    ((s.action ≠ Action.ClosePane ∨ s.pane_info_received = true) →
      (s.update (Event.PaneUpdate m)).state = s) ∧
    (s.action = Action.ClosePane → s.pane_info_received = false →
      s.target_tab_index = none →
      (s.update (Event.PaneUpdate m)).state = { s with pane_info_received := true }) := by
  constructor
  · intro h
    simp only [State.update]
    rw [if_neg]
    rintro ⟨h1, h2⟩
    rcases h with h | h
    · exact h h2
    · rw [h] at h1
      exact Bool.noConfusion h1
  · intro ha hp ht
    simp only [State.update]
    rw [if_pos ⟨hp, ha⟩]
    simp [ht]

/-- C1 witness for the amended statement: a no-op for the default
(`QuitSession`) state, and the `pane_info_received` flip for a fresh
`ClosePane` state with an unresolved tab. -/
theorem paneUpdate_effect_witness :
    (State.default.update (Event.PaneUpdate ⟨[]⟩)).state = State.default ∧
    (closePaneStart.update (Event.PaneUpdate ⟨[]⟩)).state
      = { closePaneStart with pane_info_received := true } :=
  ⟨(paneUpdate_effect State.default ⟨[]⟩).1 (Or.inl (by decide)),
   (paneUpdate_effect closePaneStart ⟨[]⟩).2 (by decide) (by decide) (by decide)⟩

/-- C2 counterexample: with the default configuration (action `QuitSession`),
pressing the confirm key emits only the session-quit call — no self-hide
request is issued on this confirm. -/
theorem confirm_quitSession_no_hide :
    (State.default.update (Event.Key (KeyWithModifier.new BareKey.Enter))).calls
      = [HostCall.quit_zellij] ∧
    HostCall.hide_self ∉
      (State.default.update (Event.Key (KeyWithModifier.new BareKey.Enter))).calls := by
  decide

/-- C2 amended: pressing the confirm key triggers `execute_action`, whose
emitted calls are: for `QuitSession`, exactly the session-quit call with no
self-hide; for `ClosePane` and `CloseTab`, a self-hide request issued
strictly before (not after) the single close call. -/
theorem confirm_calls_characterization (s : State) (key : KeyWithModifier)
    (h : s.confirm_key = key) :
    (s.update (Event.Key key)).calls = s.execute_action ∧
    (s.action = Action.QuitSession → s.execute_action = [HostCall.quit_zellij]) ∧
    (s.action ≠ Action.QuitSession →
      ∃ c, s.execute_action = [HostCall.hide_self, c] ∧ c ≠ HostCall.hide_self) := by
  refine ⟨?_, ?_, ?_⟩
  · simp only [State.update]
    rw [if_pos h]
  · intro ha
    simp [State.execute_action, ha]
  · intro ha
    cases hA : s.action with
    | QuitSession => exact absurd hA ha
    | ClosePane =>
      cases hp : s.target_pane_id with
      | some pid =>
        refine ⟨HostCall.close_pane_with_id pid, ?_, fun hc => HostCall.noConfusion hc⟩
        simp [State.execute_action, hA, hp]
      | none =>
        refine ⟨HostCall.close_focus, ?_, fun hc => HostCall.noConfusion hc⟩
        simp [State.execute_action, hA, hp]
    | CloseTab =>
      refine ⟨HostCall.close_focused_tab, ?_, fun hc => HostCall.noConfusion hc⟩
      simp [State.execute_action, hA]

/-- C2 witness for the amended statement: the default state's confirm press
emits exactly `execute_action`'s calls. -/
theorem confirm_calls_characterization_witness :
    (State.default.update (Event.Key (KeyWithModifier.new BareKey.Enter))).calls
      = State.default.execute_action ∧
    State.default.execute_action = [HostCall.quit_zellij] :=
  ⟨(confirm_calls_characterization State.default (KeyWithModifier.new BareKey.Enter) rfl).1,
   (confirm_calls_characterization State.default (KeyWithModifier.new BareKey.Enter) rfl).2.1 rfl⟩

/-- One `update` step preserves a latched tab index, keeps `pane_info_received`
true and the pane id unchanged once received, and never reverts a latched
pane id to `none`. -/
theorem update_step_mono (s : State) (e : Event) :
    (∀ n, s.target_tab_index = some n →
      ((s.update e).state).target_tab_index = some n) ∧
    (s.pane_info_received = true →
      ((s.update e).state).pane_info_received = true ∧
      ((s.update e).state).target_pane_id = s.target_pane_id) ∧
    (∀ p, s.target_pane_id = some p →
      ∃ q, ((s.update e).state).target_pane_id = some q) := by
  cases e with
  | Key key =>
    simp only [State.update]
    by_cases h1 : s.confirm_key = key
    · simp [h1] <;> exact fun p hp => ⟨p, hp⟩
    · by_cases h2 : s.cancel_key = key <;> simp [h1, h2] <;> exact fun p hp => ⟨p, hp⟩
  | PaneUpdate m =>
    simp only [State.update]
    by_cases hc : s.pane_info_received = false ∧ s.action = Action.ClosePane
    · obtain ⟨hf, hA⟩ := hc
      rw [if_pos ⟨hf, hA⟩]
      cases ht : s.target_tab_index with
      | none => simp [ht, hf] <;> exact fun p hp => ⟨p, hp⟩
      | some ti =>
        cases hg : get_focused_pane ti m with
        | none => simp [ht, hg, hf] <;> exact fun p hp => ⟨p, hp⟩
        | some pi => simp [ht, hg, hf]
    · rw [if_neg hc]
      simp <;> exact fun p hp => ⟨p, hp⟩
  | TabUpdate tabs =>
    simp only [State.update]
    by_cases ht : s.target_tab_index = none
    · rw [if_pos ht]
      cases hg : get_focused_tab tabs with
      | none => simp <;> exact fun p hp => ⟨p, hp⟩
      | some t => simp [ht] <;> exact fun p hp => ⟨p, hp⟩
    · rw [if_neg ht]
      simp <;> exact fun p hp => ⟨p, hp⟩
  | Other =>
    simp only [State.update]
    simp <;> exact fun p hp => ⟨p, hp⟩

/-- C3: resolution is monotone under every event sequence: a latched
`target_tab_index` keeps its exact value; once `pane_info_received` is true it
stays true and `target_pane_id` never changes again; a latched
`target_pane_id` never reverts to `none`. -/
theorem resolution_monotone (s : State) (es : List Event) :
    (∀ n, s.target_tab_index = some n →
      (runEvents s es).target_tab_index = some n) ∧
    (s.pane_info_received = true →
      (runEvents s es).pane_info_received = true ∧
      (runEvents s es).target_pane_id = s.target_pane_id) ∧
    (∀ p, s.target_pane_id = some p →
      ∃ q, (runEvents s es).target_pane_id = some q) := by
  induction es generalizing s with
  | nil =>
    refine ⟨fun n hn => hn, fun hp => ⟨hp, rfl⟩, fun p hp => ⟨p, hp⟩⟩
  | cons e es ih =>
    have hs := update_step_mono s e
    have ih' := ih ((s.update e).state)
    have heq : runEvents s (e :: es) = runEvents ((s.update e).state) es := rfl
    refine ⟨?_, ?_, ?_⟩
    · intro n hn
      rw [heq]
      exact ih'.1 n (hs.1 n hn)
    · intro hp
      rw [heq]
      obtain ⟨h1, h2⟩ := hs.2.1 hp
      obtain ⟨h3, h4⟩ := ih'.2.1 h1
      exact ⟨h3, by rw [h4, h2]⟩
    · intro p hp
      rw [heq]
      obtain ⟨q, hq⟩ := hs.2.2 p hp
      exact ih'.2.2 q hq

/-- C3 witness: a fully resolved state keeps tab 2, `pane_info_received` and
terminal pane 7 across a later tab notification naming a different focused
position and a later pane manifest naming a different focused pane. -/
theorem resolution_monotone_witness :
    (runEvents resolvedState
      [Event.TabUpdate [⟨0, true⟩],
       Event.PaneUpdate ⟨[(2, [⟨9, true, false⟩])]⟩]).target_tab_index = some 2 ∧
    (runEvents resolvedState
      [Event.TabUpdate [⟨0, true⟩],
       Event.PaneUpdate ⟨[(2, [⟨9, true, false⟩])]⟩]).pane_info_received = true ∧
    (runEvents resolvedState
      [Event.TabUpdate [⟨0, true⟩],
       Event.PaneUpdate ⟨[(2, [⟨9, true, false⟩])]⟩]).target_pane_id
      = some (PaneId.Terminal 7) := by
  have h := resolution_monotone resolvedState
    [Event.TabUpdate [⟨0, true⟩], Event.PaneUpdate ⟨[(2, [⟨9, true, false⟩])]⟩]
  refine ⟨h.1 2 (by decide), (h.2.1 (by decide)).1, ?_⟩
  rw [(h.2.1 (by decide)).2]
  decide

/-- C5: while `target_tab_index` is `none`, a tab notification latches the
position of the scanned focused descriptor (which is focused and belongs to
the notification); when no descriptor is focused the state is unchanged, so
the scan is retried on the next notification. -/
theorem tabUpdate_scan_latch (s : State) (tab_infos : List TabInfo)
    (h : s.target_tab_index = none) :
    (∀ t, get_focused_tab tab_infos = some t →
      t.active = true ∧ t ∈ tab_infos ∧
      (s.update (Event.TabUpdate tab_infos)).state
        = { s with target_tab_index := some t.position }) ∧
    ((∀ t ∈ tab_infos, t.active = false) →
      (s.update (Event.TabUpdate tab_infos)).state = s) := by
  constructor
  · intro t htt
    have hact : t.active = true := by
      have := List.find?_some htt
      simpa using this
    have hmem : t ∈ tab_infos := List.mem_of_find?_eq_some htt
    refine ⟨hact, hmem, ?_⟩
    simp only [State.update]
    rw [if_pos h, htt]
  · intro hall
    have hnone : get_focused_tab tab_infos = none := by
      unfold get_focused_tab
      rw [List.find?_eq_none]
      intro x hx
      simp [hall x hx]
    simp only [State.update]
    rw [if_pos h, hnone]

/-- C5 witness: the default (unresolved) state latches position 2 from a
notification whose second descriptor is focused. -/
theorem tabUpdate_scan_latch_witness :
    (State.default.update (Event.TabUpdate [⟨0, false⟩, ⟨2, true⟩])).state
      = { State.default with target_tab_index := some 2 } := by
  have h := (tabUpdate_scan_latch State.default [⟨0, false⟩, ⟨2, true⟩] rfl).1
    ⟨2, true⟩ (by decide)
  exact h.2.2

/-- C4: for `CloseTab` the resolved tab index is display-only: the target
line shows the latched 0-indexed position rendered 1-indexed, or
`(detecting...)` while unresolved, and a confirm key press emits exactly a
self-hide followed by the argumentless close-focused-tab primitive — the
resolved index is never passed to the close call, whatever it is. -/
theorem closeTab_display_and_confirm (s : State) (h : s.action = Action.CloseTab) :
    (∀ n, s.target_tab_index = some n →
      s.target_info = "Target: Tab #" ++ toString (n + 1)) ∧
    (s.target_tab_index = none → s.target_info = "Target: (detecting...)") ∧
    (s.update (Event.Key s.confirm_key)).calls
      = [HostCall.hide_self, HostCall.close_focused_tab] := by
  refine ⟨?_, ?_, ?_⟩
  · intro n hn
    simp [State.target_info, h, hn]
  · intro hn
    simp [State.target_info, h, hn]
  · simp [State.update, State.execute_action, h]

/-- C4 witness: the end-to-end scenario — loaded with `action = close_tab`,
tab notification naming position 2 as focused — displays "Target: Tab #3"
and a confirm press emits hide-self then close-focused-tab. -/
theorem closeTab_display_and_confirm_witness :
    closeTabScenario.target_info = "Target: Tab #3" ∧
    (closeTabScenario.update (Event.Key closeTabScenario.confirm_key)).calls
      = [HostCall.hide_self, HostCall.close_focused_tab] := by
  have h := closeTab_display_and_confirm closeTabScenario (by decide)
  exact ⟨(h.1 2 (by decide)).trans (by decide), h.2.2⟩

/-- C6: confirming a `ClosePane` whose target resolved to terminal pane 7
emits self-hide strictly before the tagged close-pane-by-id call; with an
unresolved target it emits self-hide then the argumentless
close-currently-focused-pane fallback, and never a close-pane-by-id call. -/
theorem closePane_confirm_calls (s : State) (h : s.action = Action.ClosePane) :
    (s.target_pane_id = some (PaneId.Terminal 7) →
      (s.update (Event.Key s.confirm_key)).calls
        = [HostCall.hide_self, HostCall.close_pane_with_id (PaneId.Terminal 7)]) ∧
    (s.target_pane_id = none →
      (s.update (Event.Key s.confirm_key)).calls
        = [HostCall.hide_self, HostCall.close_focus] ∧
      ∀ pid, HostCall.close_pane_with_id pid ∉
        (s.update (Event.Key s.confirm_key)).calls) := by
  have hc : (s.update (Event.Key s.confirm_key)).calls = s.execute_action := by
    simp [State.update]
  constructor
  · intro hp
    rw [hc]
    simp [State.execute_action, h, hp]
  · intro hp
    rw [hc]
    constructor
    · simp [State.execute_action, h, hp]
    · intro pid
      simp [State.execute_action, h, hp]

/-- C6 witness: the resolved terminal-pane-7 state emits hide-self then the
tagged close call; the unresolved state emits hide-self then the fallback. -/
theorem closePane_confirm_calls_witness :
    (terminal7State.update (Event.Key terminal7State.confirm_key)).calls
      = [HostCall.hide_self, HostCall.close_pane_with_id (PaneId.Terminal 7)] ∧
    (closePaneStart.update (Event.Key closePaneStart.confirm_key)).calls
      = [HostCall.hide_self, HostCall.close_focus] :=
  ⟨(closePane_confirm_calls terminal7State rfl).1 rfl,
   ((closePane_confirm_calls closePaneStart rfl).2 rfl).1⟩

/-- C7 counterexample: with the cancel key configured equal to the confirm
key, pressing it matches the confirm branch first — the session-terminate
primitive is invoked and no self-hide is requested. -/
theorem cancel_equals_confirm_executes :
    sameKeyState.cancel_key = KeyWithModifier.new BareKey.Enter ∧
    (sameKeyState.update (Event.Key (KeyWithModifier.new BareKey.Enter))).calls
      = [HostCall.quit_zellij] ∧
    HostCall.hide_self ∉
      (sameKeyState.update (Event.Key (KeyWithModifier.new BareKey.Enter))).calls := by
  decide

/-- C7 amended: a key equal to the cancel key and distinct from the confirm
key (the confirm branch is checked first) leaves the state unchanged and
emits exactly a self-hide request — no terminate or close primitive —
regardless of resolution state, action, or prior history; a key matching
neither binding leaves the state unchanged and emits no host call at all. -/
theorem cancel_and_other_keys (s : State) (key : KeyWithModifier) :
    (s.cancel_key = key → s.confirm_key ≠ key →
      (s.update (Event.Key key)).state = s ∧
      (s.update (Event.Key key)).calls = [HostCall.hide_self]) ∧
    (s.confirm_key ≠ key → s.cancel_key ≠ key →
      (s.update (Event.Key key)).state = s ∧
      (s.update (Event.Key key)).calls = []) := by
  constructor
  · intro hc hnc
    simp only [State.update]
    rw [if_neg hnc, if_pos hc]
    exact ⟨rfl, rfl⟩
  · intro h1 h2
    simp only [State.update]
    rw [if_neg h1, if_neg h2]
    exact ⟨rfl, rfl⟩

/-- C7 witness: in the default state, Esc hides without executing, and an
unbound key leaves the state unchanged with no host call. -/
theorem cancel_and_other_keys_witness :
    (State.default.update (Event.Key (KeyWithModifier.new BareKey.Esc))).calls
      = [HostCall.hide_self] ∧
    (State.default.update (Event.Key (KeyWithModifier.new (BareKey.Char 'x')))).calls
      = [] :=
  ⟨((cancel_and_other_keys State.default (KeyWithModifier.new BareKey.Esc)).1
      rfl (by decide)).2,
   ((cancel_and_other_keys State.default (KeyWithModifier.new (BareKey.Char 'x'))).2
      (by decide) (by decide)).2⟩

/-- C10 counterexample: at `rows = 1` (which is `< 2`) the unchecked
computation `rows - 1` for the help line does not underflow — it yields 0 —
contrary to the claim that it underflows for every `rows < 2`. -/
theorem row1_help_y_no_underflow :
    (1 : Nat) < 2 ∧ help_text_y_location 1 = some 0 := by
  decide

/-- C10 amended: `render` is total in the column dimension but not in the
row dimension: for every `cols` and `rows ≥ 6` no coordinate computation
underflows; for `rows < 6` the computation `rows / 2 - 3` underflows so
`render` panics; for `rows < 2` the computation `rows / 2 - 1` also
underflows; and `rows - 1` underflows exactly for `rows = 0`. -/
theorem render_row_underflow (s : State) (rows cols : Nat) :
    (6 ≤ rows → (s.render rows cols).isSome = true) ∧
    (rows < 6 → title_y rows = none ∧ s.render rows cols = none) ∧
    (rows < 2 → confirmation_y_location rows = none) ∧
    (help_text_y_location rows = none ↔ rows = 0) := by
  refine ⟨?_, ?_, ?_, ?_⟩
  · intro h
    have h3 : 3 ≤ rows / 2 := by omega
    have hc1 : 1 ≤ rows / 2 := by omega
    have hr : 1 ≤ rows := by omega
    simp [State.render, title_y, confirmation_y_location, help_text_y_location,
      csub, h3, hc1, hr]
  · intro h
    have h3 : ¬ 3 ≤ rows / 2 := by omega
    constructor
    · simp [title_y, csub, h3]
    · simp [State.render, title_y, csub, h3]
  · intro h
    have hc1 : ¬ 1 ≤ rows / 2 := by omega
    simp [confirmation_y_location, csub, hc1]
  · constructor
    · intro h
      by_contra hne
      have hr : 1 ≤ rows := by omega
      simp [help_text_y_location, csub, hr] at h
    · intro h
      subst h
      simp [help_text_y_location, csub]

/-- C10 witness: at 6 rows every coordinate computation succeeds, for any
state and width. -/
theorem render_row_underflow_witness :
    (State.default.render 6 20).isSome = true :=
  (render_row_underflow State.default 6 20).1 (by decide)

end ZjQuit
